import Mathlib

/-!
Verification development for the mycelium serverless function runtime.

The definitions below are shallow embeddings of the Go sources:
trigger matching (internal/trigger, matcher variants), the namespace
index (internal/trigger/types.go), the NATS-backed trigger store watcher
(internal/trigger/nats_store.go), the registry (NATSRegistry in the
function package), the runtime service invocation handler
(internal/function/service.go), and the durable event watcher
(internal/event watcher). External collaborators (NATS, the expr
engine, the go-plugin machinery) are modelled as parameters or as
injected outcomes, following the interfaces the core consumes.
-/

set_option autoImplicit false

/-! ## Association list helpers (model of Go maps keyed by strings). -/

/-- Lookup in an association list, first binding wins (Go map lookup). -/
def lookupA {α : Type} : List (String × α) → String → Option α
  | [], _ => none
  | (k, v) :: rest, key => if k = key then some v else lookupA rest key

/-- Insert or overwrite a binding (Go map assignment m[k] = v). -/
def insertA {α : Type} : List (String × α) → String → α → List (String × α)
  | [], key, v => [(key, v)]
  | (k, w) :: rest, key, v =>
    if k = key then (k, v) :: rest else (k, w) :: insertA rest key v

/-- Remove a binding (Go delete(m, k)). -/
def removeA {α : Type} : List (String × α) → String → List (String × α)
  | [], _ => []
  | (k, w) :: rest, key =>
    if k = key then rest else (k, w) :: removeA rest key

/-! ## Namespace pattern matching.

isNamespaceMatch (matcher, part of internal/trigger) converts each
pattern to an anchored Go regular expression by replacing every star
with dot-star, and tests the event namespace against it.  The model
below embeds the semantics of the generated regular expression for
patterns whose characters are regex-ordinary except the star (replaced
by dot-star) and the dot (a regex metacharacter meaning any single
character).  Since the Go code performs no escaping, a dot inside a
pattern keeps its regex meaning, which the embedding reflects with the
token anyc. -/

/-- Token of the anchored regular expression generated from a pattern:
a literal character, the dot metacharacter, or the dot-star produced
from a star in the pattern. -/
inductive Tok where
  | lit (c : Char)
  | anyc
  | star
  deriving DecidableEq, Repr

/-- Semantics of the generated anchored regular expression over the
token list: the whole input must be consumed.  The star token matches
an arbitrary, possibly empty, stretch of characters, expressed as a
match of the remaining tokens against some suffix. -/
def tokMatch : List Tok → List Char → Bool
  | [], s => s.isEmpty
  | Tok.lit c :: ts, s =>
    match s with
    | [] => false
    | x :: xs => c = x && tokMatch ts xs
  | Tok.anyc :: ts, s =>
    match s with
    | [] => false
    | _ :: xs => tokMatch ts xs
  | Tok.star :: ts, s => s.tails.any fun suf => tokMatch ts suf

/-- Translation of a pattern into the tokens of its generated regular
expression: star becomes dot-star, dot stays the any-character
metacharacter, every other (regex-ordinary) character is literal. -/
def toTokens (p : List Char) : List Tok :=
  p.map fun c => if c = '*' then Tok.star else if c = '.' then Tok.anyc else Tok.lit c

/-- Trigger record from internal/trigger/types.go.  The Go field Type
conflicts with a Lean keyword nowhere here; all field names are kept. -/
structure Trigger where
  ID : String
  Name : String
  Namespaces : List String
  ObjectType : String
  EventType : String
  Criteria : String
  Description : String
  Enabled : Bool
  Action : String
  deriving DecidableEq, Repr

/-- Zero value of Trigger, as produced by a Go composite literal that
sets only some fields. -/
def emptyTrigger : Trigger :=
  { ID := "", Name := "", Namespaces := [], ObjectType := "", EventType := ""
    Criteria := "", Description := "", Enabled := false, Action := "" }

/-- Embedding of isNamespaceMatch: an empty pattern list matches every
namespace; otherwise some pattern, read as an anchored regular
expression with stars replaced by dot-star, must match the namespace. -/
def isNamespaceMatch (t : Trigger) (eventNamespace : String) : Bool :=
  if t.Namespaces.isEmpty then true
  else t.Namespaces.any fun p => tokMatch (toTokens p.data) eventNamespace.data

/-- Wildcard semantics as the specification words it: the pattern must
equal the string character for character, except that each star may
stand for an arbitrary, possibly empty, substring.  This definition is
written from the spec, to be compared with the code embedding. -/
def specGlobMatch : List Char → List Char → Bool
  | [], s => s.isEmpty
  | c :: ps, s =>
    if c = '*' then s.tails.any fun suf => specGlobMatch ps suf
    else
      match s with
      | [] => false
      | x :: xs => c = x && specGlobMatch ps xs

/-! ## Event model (internal/event/types.go).

The Context and NATSMeta sub-objects are pointers in Go and hence
nilable; they are modelled as Option.  Actor is a plain value struct.
The payload halves are arbitrary decoded JSON values; Go interface
values are modelled by GoVal, with vnull for a nil interface.  The
timestamp is kept as its serialized text, which is all the embedded
operations can observe. -/

/-- Model of a dynamically typed Go value (interface value holding
decoded JSON or a primitive). -/
inductive GoVal where
  | vnull
  | vbool (b : Bool)
  | vint (n : Int)
  | vstr (s : String)
  | vmap (entries : List (String × GoVal))
  | vlist (items : List GoVal)

/-- True exactly on boolean values; models a Go type assertion to bool
succeeding. -/
def GoVal.isBool : GoVal → Bool
  | GoVal.vbool _ => true
  | _ => false

/-- Actor sub-object of an event. -/
structure ActorT where
  Typ : String
  ID : String

/-- Context sub-object of an event (a pointer in Go). -/
structure EventContext where
  RequestID : String
  TraceID : String

/-- NATS delivery metadata of an event (a pointer in Go). -/
structure NATSMetaT where
  Stream : String
  Sequence : Int
  ReceivedAt : String

/-- Event record from internal/event/types.go. -/
structure Event where
  EventID : String
  EventType : String
  EventVersion : String
  Namespace : String
  ObjectType : String
  ObjectID : String
  Timestamp : String
  Actor : ActorT
  Context : Option EventContext
  PayloadBefore : GoVal
  PayloadAfter : GoVal
  NATSMeta : Option NATSMetaT

/-- Embedding of SetNATSMeta: attaches NATS delivery metadata to an
event.  The received-at wall-clock reading is passed in. -/
def SetNATSMeta (e : Event) (stream : String) (sequence : Int) (receivedAt : String) : Event :=
  { e with NATSMeta := some { Stream := stream, Sequence := sequence, ReceivedAt := receivedAt } }

/-! ## Criteria evaluation (matcher in internal/trigger, the variant
over internal/event events).

The expr engine is an external collaborator; compilation and execution
are parameters.  Building the event view dereferences the Context and
NATSMeta pointers without a nil check in the source; a dereference of
an absent pointer is a runtime fault, modelled by the outer Option
being none. -/

/-- The event view map handed to the expr engine, field by field as
the Go map literal lists them, given the dereferenced Context and
NATSMeta values. -/
def eventViewMap (e : Event) (ctx : EventContext) (nm : NATSMetaT) : GoVal :=
  GoVal.vmap
    [ ("event_id", GoVal.vstr e.EventID)
    , ("event_type", GoVal.vstr e.EventType)
    , ("event_version", GoVal.vstr e.EventVersion)
    , ("namespace", GoVal.vstr e.Namespace)
    , ("object_type", GoVal.vstr e.ObjectType)
    , ("object_id", GoVal.vstr e.ObjectID)
    , ("timestamp", GoVal.vstr e.Timestamp)
    , ("actor", GoVal.vmap [("type", GoVal.vstr e.Actor.Typ), ("id", GoVal.vstr e.Actor.ID)])
    , ("context", GoVal.vmap
        [("request_id", GoVal.vstr ctx.RequestID), ("trace_id", GoVal.vstr ctx.TraceID)])
    , ("payload", GoVal.vmap [("before", e.PayloadBefore), ("after", e.PayloadAfter)])
    , ("nats_meta", GoVal.vmap
        [ ("stream", GoVal.vstr nm.Stream)
        , ("sequence", GoVal.vint nm.Sequence)
        , ("received_at", GoVal.vstr nm.ReceivedAt) ]) ]

/-- Construction of the event view map: reading a field of the Context
or NATSMeta pointer requires the pointer to be non-nil; otherwise the
construction faults (none). -/
def buildEventMap (e : Event) : Option GoVal :=
  match e.Context, e.NATSMeta with
  | some ctx, some nm => some (eventViewMap e ctx nm)
  | _, _ => none

/-- Embedding of evaluateTriggerCriteria.  The expr engine is passed
in: compileF models expr.Compile against the environment, runF models
expr.Run of the compiled program.  Empty criteria short-circuits to
true; a non-boolean result of the engine is an evaluation error.  The
outer none is the nil-pointer fault raised while the event map is
built. -/
def evaluateTriggerCriteria
    (compileF : String → GoVal → Except String String)
    (runF : String → GoVal → Except String GoVal)
    (e : Event) (criteria : String) : Option (Except String Bool) :=
  if criteria = "" then some (Except.ok true)
  else
    match buildEventMap e with
    | none => none
    | some m =>
      let env := GoVal.vmap [("event", m)]
      some
        (match compileF criteria env with
        | Except.error msg => Except.error ("failed to compile criteria: " ++ msg)
        | Except.ok prog =>
          match runF prog env with
          | Except.error msg => Except.error ("failed to evaluate criteria: " ++ msg)
          | Except.ok out =>
            match out with
            | GoVal.vbool b => Except.ok b
            | _ => Except.error "expression did not return a boolean")

/-- Embedding of MatchTrigger.  A disabled trigger never matches (the
nil-trigger guard of the Go code cannot arise for Lean values).  Empty
criteria matches on event type, namespace patterns and object type;
otherwise the criteria expression decides. -/
def MatchTrigger
    (compileF : String → GoVal → Except String String)
    (runF : String → GoVal → Except String GoVal)
    (t : Trigger) (e : Event) : Option (Except String Bool) :=
  if !t.Enabled then some (Except.ok false)
  else if t.Criteria = "" then
    some (Except.ok
      ((t.EventType = "" || t.EventType = e.EventType)
        && isNamespaceMatch t e.Namespace
        && (t.ObjectType = "" || t.ObjectType = e.ObjectType)))
  else evaluateTriggerCriteria compileF runF e t.Criteria

/-- Loop body of FindMatchingTriggers: triggers are tested in order,
the first evaluation error aborts the whole loop and is returned
wrapped with the trigger id; matches are collected in order. -/
def findLoop
    (compileF : String → GoVal → Except String String)
    (runF : String → GoVal → Except String GoVal)
    (e : Event) : List Trigger → Option (Except String (List Trigger))
  | [] => some (Except.ok [])
  | t :: ts =>
    match MatchTrigger compileF runF t e with
    | none => none
    | some (Except.error msg) =>
      some (Except.error ("error matching trigger " ++ t.ID ++ ": " ++ msg))
    | some (Except.ok b) =>
      match findLoop compileF runF e ts with
      | none => none
      | some (Except.error msg) => some (Except.error msg)
      | some (Except.ok rest) => some (Except.ok (if b then t :: rest else rest))

/-- Embedding of FindMatchingTriggers.  The candidate list stands for
the result of the store lookup on the event namespace; an empty
candidate set returns the empty result at once. -/
def FindMatchingTriggers
    (compileF : String → GoVal → Except String String)
    (runF : String → GoVal → Except String GoVal)
    (candidates : List Trigger) (e : Event) : Option (Except String (List Trigger)) :=
  if candidates.isEmpty then some (Except.ok [])
  else findLoop compileF runF e candidates

/-! ## Namespace index (internal/trigger/types.go) and the store
watcher (internal/trigger/nats_store.go).

Go maps are modelled as association lists; iteration order, which Go
leaves unspecified, is the list order.  Bucket values are id lists. -/

/-- Index of triggers by namespace pattern: exact buckets for literal
patterns, pattern buckets for patterns containing a star (and the
catch-all star bucket for triggers without namespaces), and triggers
by id. -/
structure NamespaceIndex where
  exactMatches : List (String × List String)
  patternMatches : List (String × List String)
  triggers : List (String × Trigger)
  deriving DecidableEq, Repr

/-- The freshly created empty index. -/
def newNamespaceIndex : NamespaceIndex :=
  { exactMatches := [], patternMatches := [], triggers := [] }

/-- Append an id to a bucket, creating the bucket when absent (the Go
append on a map entry). -/
def appendBucket (bs : List (String × List String)) (key id : String) : List (String × List String) :=
  match lookupA bs key with
  | none => insertA bs key [id]
  | some ids => insertA bs key (ids ++ [id])

/-- Embedding of addTrigger: registers the trigger by id and files it
into the star bucket when it has no namespaces, otherwise into the
exact bucket of each literal pattern and the pattern bucket of each
pattern containing a star. -/
def addTrigger (idx : NamespaceIndex) (t : Trigger) : NamespaceIndex :=
  let idx1 := { idx with triggers := insertA idx.triggers t.ID t }
  if t.Namespaces.isEmpty then
    { idx1 with patternMatches := appendBucket idx1.patternMatches "*" t.ID }
  else
    t.Namespaces.foldl
      (fun acc p =>
        if p.data.contains '*' then
          { acc with patternMatches := appendBucket acc.patternMatches p t.ID }
        else
          { acc with exactMatches := appendBucket acc.exactMatches p t.ID })
      idx1

/-- Drop an id from every bucket, deleting buckets that become empty
(the rebuild loop of removeTrigger). -/
def removeFromBuckets (bs : List (String × List String)) (triggerID : String) :
    List (String × List String) :=
  (bs.map fun kv => (kv.1, kv.2.filter fun id => id ≠ triggerID)).filter
    fun kv => !kv.2.isEmpty

/-- Embedding of removeTrigger: a no-op when no trigger is registered
under the given id, otherwise the id is dropped from the trigger map
and from every exact and pattern bucket. -/
def removeTrigger (idx : NamespaceIndex) (triggerID : String) : NamespaceIndex :=
  match lookupA idx.triggers triggerID with
  | none => idx
  | some _ =>
    { triggers := removeA idx.triggers triggerID
      exactMatches := removeFromBuckets idx.exactMatches triggerID
      patternMatches := removeFromBuckets idx.patternMatches triggerID }

/-- Id collection step of getTriggers: deduplicate while resolving ids
against the trigger map, marking an id seen only when it resolved. -/
def collectTriggers (triggers : List (String × Trigger)) :
    List String → List String → List Trigger
  | _, [] => []
  | seen, id :: rest =>
    if seen.contains id then collectTriggers triggers seen rest
    else
      match lookupA triggers id with
      | some t => t :: collectTriggers triggers (id :: seen) rest
      | none => collectTriggers triggers seen rest

/-- Embedding of getTriggers: the ids of the exact bucket of the
namespace, then the ids of every pattern bucket whose pattern is the
star or matches the namespace, resolved and deduplicated. -/
def getTriggers (idx : NamespaceIndex) (namespace1 : String) : List Trigger :=
  let exactIds := (lookupA idx.exactMatches namespace1).getD []
  let patIds :=
    (idx.patternMatches.filter fun kv =>
      kv.1 = "*" || isNamespaceMatch { emptyTrigger with Namespaces := [kv.1] } namespace1).flatMap
      fun kv => kv.2
  collectTriggers idx.triggers [] (exactIds ++ patIds)

/-- KV key under which SaveTrigger and DeleteTrigger store a trigger:
namespace, dot, trigger name. -/
def saveKey (namespace1 name : String) : String :=
  namespace1 ++ "." ++ name

/-- Embedding of the delete branch of the NATSStore watch loop: the
update key, which is the full KV key, is passed to removeTrigger. -/
def watchDeleteStep (idx : NamespaceIndex) (updateKey : String) : NamespaceIndex :=
  removeTrigger idx updateKey

/-! ## Registry (NATSRegistry in the function package).

The two NATS buckets are modelled as maps from name to stored value;
each KV and object-store operation may fail, and the outcome of every
such external call is injected as a boolean.  The JSON round-trip of
FunctionMeta is lossless for this struct, so the KV value is modelled
as the meta record itself. -/

/-- Function metadata record.  The Go field Type is rendered Typ,
since Type is reserved in Lean. -/
structure FunctionMeta where
  Name : String
  Typ : String
  Version : String
  Config : List (String × String)
  deriving DecidableEq, Repr

/-- Bytes of a function binary. -/
def ByteSeq : Type := List Nat

/-- State of the two registry buckets: the functions KV bucket and the
function-binaries object store. -/
structure RegState where
  kv : List (String × FunctionMeta)
  obj : List (String × ByteSeq)

/-- The state with both buckets empty. -/
def regEmpty : RegState :=
  { kv := [], obj := [] }

/-- Embedding of NATSRegistry.StoreFunction with injected outcomes for
the two bucket writes: the metadata is written first; when that fails
the state is unchanged and an error is returned; when the following
binary write fails the error is returned with the metadata left in
place; otherwise both are written. -/
def StoreFunction (s : RegState) (meta : FunctionMeta) (binary : ByteSeq)
    (kvPutOk objPutOk : Bool) : RegState × Except String Unit :=
  if !kvPutOk then (s, Except.error "failed to store metadata")
  else
    let s1 := { s with kv := insertA s.kv meta.Name meta }
    if !objPutOk then (s1, Except.error "failed to store binary")
    else ({ s1 with obj := insertA s1.obj meta.Name binary }, Except.ok ())

/-- Embedding of NATSRegistry.GetFunction: the metadata is read first,
then the binary; a missing key in either bucket surfaces as the error
of that step. -/
def GetFunction (s : RegState) (name : String) : Except String (FunctionMeta × ByteSeq) :=
  match lookupA s.kv name with
  | none => Except.error "failed to get metadata"
  | some meta =>
    match lookupA s.obj name with
    | none => Except.error "failed to get binary"
    | some binary => Except.ok (meta, binary)

/-- Embedding of NATSRegistry.DeleteFunction with injected outcomes:
metadata first, then the binary; a failure of the first delete leaves
the state unchanged, a failure of the second leaves the metadata
removed. -/
def DeleteFunction (s : RegState) (name : String) (kvDelOk objDelOk : Bool) :
    RegState × Except String Unit :=
  if !kvDelOk then (s, Except.error "failed to delete metadata")
  else
    let s1 := { s with kv := removeA s.kv name }
    if !objDelOk then (s1, Except.error "failed to delete binary")
    else ({ s1 with obj := removeA s1.obj name }, Except.ok ())

/-! ## Runtime service (internal/function/service.go).

The plugin cache is the plugins map of the service.  The registry
behind the Registry interface and the go-plugin loader behind the
hashicorp branch are parameters.  The reply sent on the bus is the
observable outcome of the invocation handler. -/

/-- A live plugin handle: the builtin example plugin, or a handle
produced by the external go-plugin manager, identified by a number. -/
inductive PluginH where
  | examplePlugin (meta : FunctionMeta)
  | hashicorpPlugin (meta : FunctionMeta) (handle : Nat)
  deriving DecidableEq, Repr

/-- Embedding of RuntimeService.loadPlugin: the builtin branch knows
only the example function; the hashicorp-plugin branch delegates to
the plugin manager, passed in as hashiLoad; every other type is
unsupported. -/
def loadPlugin (hashiLoad : FunctionMeta → ByteSeq → Except String PluginH)
    (meta : FunctionMeta) (binary : ByteSeq) : Except String PluginH :=
  if meta.Typ = "builtin" then
    if meta.Name = "example" then Except.ok (PluginH.examplePlugin meta)
    else Except.error ("built-in function " ++ meta.Name ++ " not found")
  else if meta.Typ = "hashicorp-plugin" then hashiLoad meta binary
  else Except.error ("unsupported plugin type: " ++ meta.Typ)

/-- Embedding of RuntimeService.getPlugin: a cached handle is returned
at once; otherwise the registry is queried (regGet models the call
through the Registry interface), the plugin is loaded and stored in
the cache.  Both failure messages are wrapped as in the source. -/
def getPlugin (regGet : String → Except String (FunctionMeta × ByteSeq))
    (hashiLoad : FunctionMeta → ByteSeq → Except String PluginH)
    (plugins : List (String × PluginH)) (name : String) :
    List (String × PluginH) × Except String PluginH :=
  match lookupA plugins name with
  | some p => (plugins, Except.ok p)
  | none =>
    match regGet name with
    | Except.error msg =>
      (plugins, Except.error ("failed to get function from registry: " ++ msg))
    | Except.ok (meta, binary) =>
      match loadPlugin hashiLoad meta binary with
      | Except.error msg => (plugins, Except.error ("failed to load plugin: " ++ msg))
      | Except.ok p => (insertA plugins name p, Except.ok p)

/-- Reply sent on the invocation subject: an event list on success, or
an error payload with its errorType kind. -/
inductive Reply where
  | events (evs : List GoVal)
  | rerror (errorType : String) (msg : String)

/-- Embedding of RuntimeService.handleFunctionInvocation.  The decoded
request is none when unmarshalling the envelope failed.  The plugin
execution (exec) and the marshalling outcome of the success response
(marshalOk) are injected.  Every failure of getPlugin is answered with
the plugin-not-found kind; an execution failure with the
execution-error kind; a marshalling failure with the response-error
kind. -/
def handleFunctionInvocation
    (regGet : String → Except String (FunctionMeta × ByteSeq))
    (hashiLoad : FunctionMeta → ByteSeq → Except String PluginH)
    (exec : PluginH → GoVal → Except String (List GoVal))
    (marshalOk : Bool)
    (plugins : List (String × PluginH))
    (decoded : Option (String × GoVal)) :
    List (String × PluginH) × Reply :=
  match decoded with
  | none => (plugins, Reply.rerror "invalid_request" "failed to unmarshal request")
  | some (functionName, ev) =>
    match getPlugin regGet hashiLoad plugins functionName with
    | (plugins1, Except.error msg) => (plugins1, Reply.rerror "plugin_not_found" msg)
    | (plugins1, Except.ok p) =>
      match exec p ev with
      | Except.error msg => (plugins1, Reply.rerror "execution_error" msg)
      | Except.ok evs =>
        if marshalOk then (plugins1, Reply.events evs)
        else (plugins1, Reply.rerror "response_error" "failed to marshal response")

/-! ## Interleaving model of concurrent getPlugin calls.

getPlugin reads the cache under a reader lock, performs the registry
fetch and the plugin load with no lock held, and writes the cache
under the writer lock.  Two callers for one name are modelled as
threads whose atomic steps are exactly these three source sections:
the locked read (together with the miss-path load, which creates a
fresh handle), and the locked write.  The scheduler is an injected
list of thread choices. -/

/-- Shared state of the cache model: the plugins map (handles are
numbered), the number of loads performed, and the next fresh handle
number. -/
structure CacheGlobal where
  plugins : List (String × Nat)
  loadCount : Nat
  nextHandle : Nat
  deriving DecidableEq, Repr

/-- Control state of one caller: before the locked read, before the
locked write carrying the loaded handle, or returned with a handle. -/
inductive CacheThread where
  | check
  | store (h : Nat)
  | done (h : Nat)
  deriving DecidableEq, Repr

/-- One atomic step of a caller for the given name: the locked read
returns a cached handle when present, otherwise the caller performs
the load, receiving a fresh handle; the locked write publishes the
loaded handle.  A returned caller does not move. -/
def cacheStep (name : String) (g : CacheGlobal) : CacheThread → CacheGlobal × CacheThread
  | CacheThread.check =>
    match lookupA g.plugins name with
    | some h => (g, CacheThread.done h)
    | none =>
      ({ g with loadCount := g.loadCount + 1, nextHandle := g.nextHandle + 1 },
        CacheThread.store g.nextHandle)
  | CacheThread.store h =>
    ({ g with plugins := insertA g.plugins name h }, CacheThread.done h)
  | CacheThread.done h => (g, CacheThread.done h)

/-- Run two callers under a schedule: false steps the first caller,
true steps the second. -/
def cacheRun (name : String) :
    List Bool → CacheGlobal × CacheThread × CacheThread → CacheGlobal × CacheThread × CacheThread
  | [], st => st
  | c :: cs, (g, ta, tb) =>
    if c then
      let (g1, tb1) := cacheStep name g tb
      cacheRun name cs (g1, ta, tb1)
    else
      let (g1, ta1) := cacheStep name g ta
      cacheRun name cs (g1, ta1, tb)

/-- The cold cache with no loads performed. -/
def cacheCold : CacheGlobal :=
  { plugins := [], loadCount := 0, nextHandle := 0 }

/-! ## Durable event watcher (the handleMessage handler of the event
package watcher).

A consumed message is decoded; on failure one negative acknowledgment
is sent.  When the NATS delivery metadata is available it is attached
to the event.  The handler is then run; on error one negative
acknowledgment is sent, otherwise one acknowledgment. -/

/-- Acknowledgment actions the handler can send on the bus. -/
inductive BusAct where
  | ack
  | nak
  deriving DecidableEq, Repr

/-- Metadata attachment step of handleMessage: when msg.Metadata
succeeded, the stream name, sequence and received-at reading are
attached to the event. -/
def applyMeta (metadata : Option (String × Int × String)) (e : Event) : Event :=
  match metadata with
  | some (stream, sequence, receivedAt) => SetNATSMeta e stream sequence receivedAt
  | none => e

/-- Embedding of Watcher.handleMessage: the sequence of bus actions the
handler sends for one consumed message. -/
def handleMessage (decode : ByteSeq → Except String Event)
    (metadata : Option (String × Int × String))
    (handler : Event → Except String Unit)
    (data : ByteSeq) : List BusAct :=
  match decode data with
  | Except.error _ => [BusAct.nak]
  | Except.ok e =>
    match handler (applyMeta metadata e) with
    | Except.error _ => [BusAct.nak]
    | Except.ok _ => [BusAct.ack]

/-! ## Shared fixtures for concrete evaluations. -/

/-- An event whose Context and NATSMeta pointers are set. -/
def evOk : Event :=
  { EventID := "e1", EventType := "user.updated", EventVersion := "1.3.0", Namespace := "prod"
    ObjectType := "User", ObjectID := "u1", Timestamp := "t"
    Actor := { Typ := "user", ID := "a1" }
    Context := some { RequestID := "", TraceID := "" }
    PayloadBefore := GoVal.vnull, PayloadAfter := GoVal.vnull
    NATSMeta := some { Stream := "s", Sequence := 1, ReceivedAt := "r" } }

/-- An event as the package constructor NewEvent leaves it: the
Context and NATSMeta pointers are nil and the actor is zero. -/
def evNil : Event :=
  { EventID := "e2", EventType := "user.updated", EventVersion := "1.3.0", Namespace := "prod"
    ObjectType := "User", ObjectID := "u2", Timestamp := "t"
    Actor := { Typ := "", ID := "" }
    Context := none
    PayloadBefore := GoVal.vnull, PayloadAfter := GoVal.vnull
    NATSMeta := none }

/-- An expr-engine front end whose compilation always succeeds,
returning the source text as the program. -/
def compileOk : String → GoVal → Except String String :=
  fun source _ => Except.ok source

/-- An expr-engine back end that fails on the program named bad and
returns the boolean true otherwise. -/
def runStub : String → GoVal → Except String GoVal :=
  fun prog _ => if prog = "bad" then Except.error "boom" else Except.ok (GoVal.vbool true)

/-- An expr-engine back end that always returns a string value. -/
def runNonBool : String → GoVal → Except String GoVal :=
  fun _ _ => Except.ok (GoVal.vstr "hi")

/-- Enabled trigger with the failing criteria bad. -/
def tBad : Trigger := { emptyTrigger with ID := "tb", Criteria := "bad", Enabled := true }

/-- Enabled trigger with the succeeding criteria good. -/
def tGood : Trigger := { emptyTrigger with ID := "tg", Criteria := "good", Enabled := true }

/-- Enabled trigger selecting the literal namespace prod. -/
def tProd : Trigger := { emptyTrigger with ID := "ta", Namespaces := ["prod"], Enabled := true }

/-- Enabled trigger selecting every namespace through the star
pattern. -/
def tStar : Trigger := { emptyTrigger with ID := "tc", Namespaces := ["*"], Enabled := true }

/-- Enabled trigger whose namespace pattern contains a dot. -/
def tDot : Trigger := { emptyTrigger with ID := "td", Namespaces := ["a.c"], Enabled := true }

/-- Trigger stored in the index scenario: id t1, namespace bucket
prod. -/
def t1 : Trigger := { emptyTrigger with ID := "t1", Namespaces := ["prod"], Enabled := true }

/-- Index holding exactly t1, as the store loads it. -/
def idx0 : NamespaceIndex := addTrigger newNamespaceIndex t1

/-- Metadata fixture for the registry scenario. -/
def m0 : FunctionMeta := { Name := "f", Typ := "builtin", Version := "1", Config := [] }

/-- Registry front end holding one function u of the unsupported type
wat, as the memory registry would serve it. -/
def regU : String → Except String (FunctionMeta × ByteSeq) :=
  fun name =>
    if name = "u" then Except.ok ({ Name := "u", Typ := "wat", Version := "1", Config := [] }, [])
    else Except.error ("function " ++ name ++ " not found")

/-- Plugin-manager front end that refuses every load. -/
def hashiNone : FunctionMeta → ByteSeq → Except String PluginH :=
  fun _ _ => Except.error "no manager"

/-- Plugin execution front end that refuses every call. -/
def execNone : PluginH → GoVal → Except String (List GoVal) :=
  fun _ _ => Except.error "no exec"

/-! ## Helper lemmas. -/

/-- Congruence for List.any under a pointwise equality on members. -/
theorem anyCongrMem {α : Type} (l : List α) (f g : α → Bool)
    (h : ∀ a ∈ l, f a = g a) : l.any f = l.any g := by
  induction l with
  | nil => rfl
  | cons a l ih =>
    simp only [List.any_cons]
    rw [h a (List.mem_cons_self a l), ih fun b hb => h b (List.mem_cons_of_mem a hb)]

/-- Lookup immediately after insertion of the same key yields the
inserted value. -/
theorem lookupA_insertA_self {α : Type} (l : List (String × α)) (k : String) (v : α) :
    lookupA (insertA l k v) k = some v := by
  induction l with
  | nil => simp [insertA, lookupA]
  | cons p l ih =>
    by_cases hk : p.1 = k
    · simp [insertA, lookupA, hk]
    · simp [insertA, lookupA, hk, ih]

/-- On patterns free of the dot metacharacter, the generated regular
expression coincides with the wildcard semantics of the spec. -/
theorem tokMatch_eq_specGlob (p : List Char) (hnd : ∀ c ∈ p, c ≠ '.') :
    ∀ s, tokMatch (toTokens p) s = specGlobMatch p s := by
  induction p with
  | nil => intro s; simp [toTokens, tokMatch, specGlobMatch]
  | cons c ps ih =>
    have hc : c ≠ '.' := hnd c (List.mem_cons_self c ps)
    have hps : ∀ c' ∈ ps, c' ≠ '.' := fun c' h => hnd c' (List.mem_cons_of_mem c h)
    intro s
    by_cases hstar : c = '*'
    · subst hstar
      have hts : toTokens ('*' :: ps) = Tok.star :: toTokens ps := by
        simp [toTokens]
      rw [hts]
      have h1 : tokMatch (Tok.star :: toTokens ps) s
          = s.tails.any fun suf => tokMatch (toTokens ps) suf := rfl
      have h2 : specGlobMatch ('*' :: ps) s
          = s.tails.any fun suf => specGlobMatch ps suf := by
        simp [specGlobMatch]
      rw [h1, h2]
      exact anyCongrMem _ _ _ fun a _ => ih hps a
    · have hts : toTokens (c :: ps) = Tok.lit c :: toTokens ps := by
        simp [toTokens, hstar, hc]
      rw [hts]
      cases s with
      | nil =>
        have h1 : tokMatch (Tok.lit c :: toTokens ps) [] = false := rfl
        have h2 : specGlobMatch (c :: ps) [] = false := by
          simp [specGlobMatch, hstar]
        rw [h1, h2]
      | cons x xs =>
        have h1 : tokMatch (Tok.lit c :: toTokens ps) (x :: xs)
            = (decide (c = x) && tokMatch (toTokens ps) xs) := rfl
        have h2 : specGlobMatch (c :: ps) (x :: xs)
            = (decide (c = x) && specGlobMatch ps xs) := by
          simp [specGlobMatch, hstar]
        rw [h1, h2, ih hps xs]

/-! ## Claim theorems. -/

/-- Fixture trigger for the empty-criteria match: enabled, selecting
event type user.updated, namespace prod and object type User. -/
def tC3 : Trigger :=
  { emptyTrigger with
    ID := "t3", Namespaces := ["prod"], EventType := "user.updated",
    ObjectType := "User", Enabled := true }

/-- C3: for every enabled trigger with empty criteria and every event,
MatchTrigger returns true exactly when the event type test passes, the
namespace test passes, and the object type test passes, so the match
set under empty criteria is the intersection of the three
predicates. -/
theorem matchTrigger_empty_criteria
    (compileF : String → GoVal → Except String String)
    (runF : String → GoVal → Except String GoVal)
    (t : Trigger) (e : Event)
    (hEnabled : t.Enabled = true) (hCrit : t.Criteria = "") :
    MatchTrigger compileF runF t e
      = some (Except.ok
          ((t.EventType = "" || t.EventType = e.EventType)
            && isNamespaceMatch t e.Namespace
            && (t.ObjectType = "" || t.ObjectType = e.ObjectType))) := by
  simp [MatchTrigger, hEnabled, hCrit]

/-- Witness for C3: the empty-criteria theorem applied to a concrete
enabled trigger and event, on which the three predicates all hold. -/
theorem matchTrigger_empty_criteria_witness :
    MatchTrigger compileOk runStub tC3 evOk
      = some (Except.ok
          ((tC3.EventType = "" || tC3.EventType = evOk.EventType)
            && isNamespaceMatch tC3 evOk.Namespace
            && (tC3.ObjectType = "" || tC3.ObjectType = evOk.ObjectType)))
    ∧ MatchTrigger compileOk runStub tC3 evOk = some (Except.ok true) :=
  ⟨matchTrigger_empty_criteria compileOk runStub tC3 evOk (by decide) (by decide), rfl⟩

/-- Counterexample for C7: the pattern a.c matches the namespace abc
in the code, although character for character, with stars standing for
substrings, it does not; the dot kept its regex meaning. -/
theorem namespacePattern_dot_counterexample :
    isNamespaceMatch tDot "abc" = true
    ∧ (tDot.Namespaces.isEmpty || tDot.Namespaces.any fun p => specGlobMatch p.data "abc".data)
        = false := by
  constructor
  · decide
  · decide

/-- C7 as amended: for triggers whose patterns contain only
alphanumeric characters, dash, underscore and the star, the namespace
test passes exactly when the pattern list is empty or some pattern
matches the namespace under the wildcard semantics of the spec.  For
patterns with other regex metacharacters, the dot counterexample shows
the equivalence fails. -/
theorem namespaceMatch_glob_for_plain_patterns (t : Trigger) (s : String)
    (hplain : ∀ p ∈ t.Namespaces, ∀ c ∈ p.data,
      c.isAlphanum = true ∨ c = '-' ∨ c = '_' ∨ c = '*') :
    isNamespaceMatch t s
      = (t.Namespaces.isEmpty || t.Namespaces.any fun p => specGlobMatch p.data s.data) := by
  unfold isNamespaceMatch
  by_cases he : t.Namespaces.isEmpty = true
  · simp [he]
  · rw [if_neg he]
    simp only [Bool.not_eq_true] at he
    rw [he]
    simp only [Bool.false_or]
    apply anyCongrMem
    intro p hp
    apply tokMatch_eq_specGlob
    intro c hcp
    rcases hplain p hp c hcp with h | h | h | h <;>
      (intro hdot; rw [hdot] at h; revert h; decide)

/-- Witness for C7: the amended theorem applied to the triggers of the
spec example, together with the concrete outcomes: the prod trigger
matches prod and not dev, the star trigger matches both. -/
theorem namespaceMatch_glob_witness :
    isNamespaceMatch tProd "prod"
        = (tProd.Namespaces.isEmpty || tProd.Namespaces.any fun p => specGlobMatch p.data "prod".data)
    ∧ isNamespaceMatch tProd "dev"
        = (tProd.Namespaces.isEmpty || tProd.Namespaces.any fun p => specGlobMatch p.data "dev".data)
    ∧ isNamespaceMatch tStar "dev"
        = (tStar.Namespaces.isEmpty || tStar.Namespaces.any fun p => specGlobMatch p.data "dev".data)
    ∧ isNamespaceMatch tProd "prod" = true
    ∧ isNamespaceMatch tProd "dev" = false
    ∧ isNamespaceMatch tStar "prod" = true
    ∧ isNamespaceMatch tStar "dev" = true :=
  ⟨namespaceMatch_glob_for_plain_patterns tProd "prod" (by decide),
   namespaceMatch_glob_for_plain_patterns tProd "dev" (by decide),
   namespaceMatch_glob_for_plain_patterns tStar "dev" (by decide),
   by decide, by decide, by decide, by decide⟩

/-- C9: for every event whose view builds, when the compiled criteria
expression runs to a value that is not a boolean, criteria evaluation
returns the evaluation error of the source, so the trigger does not
match. -/
theorem criteriaNonBoolean_error
    (compileF : String → GoVal → Except String String)
    (runF : String → GoVal → Except String GoVal)
    (e : Event) (ctx : EventContext) (nm : NATSMetaT)
    (criteria prog : String) (v : GoVal)
    (hCrit : ¬criteria = "")
    (hctx : e.Context = some ctx) (hnm : e.NATSMeta = some nm)
    (hcomp : compileF criteria (GoVal.vmap [("event", eventViewMap e ctx nm)]) = Except.ok prog)
    (hrun : runF prog (GoVal.vmap [("event", eventViewMap e ctx nm)]) = Except.ok v)
    (hv : v.isBool = false) :
    evaluateTriggerCriteria compileF runF e criteria
      = some (Except.error "expression did not return a boolean") := by
  have hbm : buildEventMap e = some (eventViewMap e ctx nm) := by
    unfold buildEventMap
    rw [hctx, hnm]
  unfold evaluateTriggerCriteria
  rw [if_neg hCrit, hbm]
  simp only [hcomp, hrun]
  cases v <;> simp_all [GoVal.isBool]

/-- Witness for C9: an engine returning a string value makes the
evaluation of a concrete criteria against a concrete event fail with
the non-boolean error. -/
theorem criteriaNonBoolean_error_witness :
    evaluateTriggerCriteria compileOk runNonBool evOk "x"
      = some (Except.error "expression did not return a boolean") :=
  criteriaNonBoolean_error compileOk runNonBool evOk
    { RequestID := "", TraceID := "" } { Stream := "s", Sequence := 1, ReceivedAt := "r" }
    "x" "x" (GoVal.vstr "hi") (by decide) rfl rfl rfl rfl rfl

/-- C10: building the event view is not total; on an event whose
Context pointer is nil, as the package constructor NewEvent leaves it,
the construction dereferences the nil pointer and faults, and hence so
does the evaluation of any non-empty criteria, instead of resolving
the context keys to empty strings. -/
theorem eventView_faults_on_nil_pointers :
    buildEventMap evNil = none
    ∧ ∀ (compileF : String → GoVal → Except String String)
        (runF : String → GoVal → Except String GoVal),
        evaluateTriggerCriteria compileF runF evNil "event.actor.type == nil" = none := by
  constructor
  · rfl
  · intro compileF runF
    unfold evaluateTriggerCriteria
    rw [if_neg (by decide), show buildEventMap evNil = none from rfl]

/-- Counterexample for C1: when the binary write fails after the
metadata write succeeded, StoreFunction returns failure but the
metadata it just wrote is still present and the binary is absent; no
compensating delete happened. -/
theorem storeFunction_no_rollback_counterexample :
    (StoreFunction regEmpty m0 [1, 2] true false).2 = Except.error "failed to store binary"
    ∧ lookupA (StoreFunction regEmpty m0 [1, 2] true false).1.kv "f" = some m0
    ∧ lookupA (StoreFunction regEmpty m0 [1, 2] true false).1.obj "f" = none :=
  ⟨rfl, rfl, rfl⟩

/-- C1 as amended: a blob-write failure after the metadata write makes
StoreFunction return failure with the metadata left in place and the
object store untouched; GetFunction still never returns exactly one
half, since it succeeds exactly when both halves are present. -/
theorem storeFunction_blob_failure_keeps_metadata (s : RegState) (meta : FunctionMeta)
    (binary : ByteSeq) :
    (StoreFunction s meta binary true false).2 = Except.error "failed to store binary"
    ∧ lookupA (StoreFunction s meta binary true false).1.kv meta.Name = some meta
    ∧ (StoreFunction s meta binary true false).1.obj = s.obj
    ∧ ∀ (s' : RegState) (n : String),
        (GetFunction s' n).isOk
          = ((lookupA s'.kv n).isSome && (lookupA s'.obj n).isSome) := by
  refine ⟨by simp [StoreFunction],
    by simp [StoreFunction, lookupA_insertA_self],
    by simp [StoreFunction], ?_⟩
  intro s' n
  unfold GetFunction
  cases lookupA s'.kv n <;> cases lookupA s'.obj n <;> simp [Except.isOk, Except.toBool]

/-- Counterexample for C2: a function that is present in the registry
but fails to load, having the unsupported type wat, is answered with
the plugin-not-found kind, not the execution-error kind. -/
theorem invoke_load_failure_replies_not_found_counterexample :
    (handleFunctionInvocation regU hashiNone execNone true [] (some ("u", GoVal.vnull))).2
      = Reply.rerror "plugin_not_found" "failed to load plugin: unsupported plugin type: wat"
    ∧ "plugin_not_found" ≠ "execution_error" :=
  ⟨rfl, by decide⟩

/-- C2 as amended: every failure of getPlugin, whether the registry
lookup failed or the load failed, is answered with the
plugin-not-found kind carrying the wrapped message. -/
theorem invoke_getPlugin_failure_replies_not_found
    (regGet : String → Except String (FunctionMeta × ByteSeq))
    (hashiLoad : FunctionMeta → ByteSeq → Except String PluginH)
    (exec : PluginH → GoVal → Except String (List GoVal))
    (marshalOk : Bool)
    (plugins plugins1 : List (String × PluginH)) (name : String) (ev : GoVal) (msg : String)
    (h : getPlugin regGet hashiLoad plugins name = (plugins1, Except.error msg)) :
    handleFunctionInvocation regGet hashiLoad exec marshalOk plugins (some (name, ev))
      = (plugins1, Reply.rerror "plugin_not_found" msg) := by
  simp only [handleFunctionInvocation]
  rw [h]

/-- Witness for C2: the amended theorem applied to the registry that
serves the function u of the unsupported type wat. -/
theorem invoke_getPlugin_failure_witness :
    handleFunctionInvocation regU hashiNone execNone true [] (some ("u", GoVal.vnull))
      = ([], Reply.rerror "plugin_not_found" "failed to load plugin: unsupported plugin type: wat") :=
  invoke_getPlugin_failure_replies_not_found regU hashiNone execNone true [] [] "u" GoVal.vnull
    "failed to load plugin: unsupported plugin type: wat" rfl

/-- Counterexample for C4: with a first trigger whose criteria
evaluation errors and a second trigger that matches, the whole match
returns the error of the first; the matching second trigger is not
returned. -/
theorem findMatching_error_aborts_counterexample :
    FindMatchingTriggers compileOk runStub [tBad, tGood] evOk
      = some (Except.error "error matching trigger tb: failed to evaluate criteria: boom")
    ∧ MatchTrigger compileOk runStub tGood evOk = some (Except.ok true) :=
  ⟨rfl, rfl⟩

/-- C4 as amended: an evaluation error for any candidate trigger
aborts FindMatchingTriggers; the error is wrapped with the trigger id
and propagated, and no remaining triggers are evaluated or
returned. -/
theorem findMatching_aborts_on_error
    (compileF : String → GoVal → Except String String)
    (runF : String → GoVal → Except String GoVal)
    (e : Event) (ts1 : List Trigger) (t : Trigger) (ts2 : List Trigger) (msg : String)
    (hok : ∀ t' ∈ ts1, ∃ b, MatchTrigger compileF runF t' e = some (Except.ok b))
    (herr : MatchTrigger compileF runF t e = some (Except.error msg)) :
    FindMatchingTriggers compileF runF (ts1 ++ t :: ts2) e
      = some (Except.error ("error matching trigger " ++ t.ID ++ ": " ++ msg)) := by
  have hne : (ts1 ++ t :: ts2).isEmpty = false := by
    cases ts1 <;> simp
  unfold FindMatchingTriggers
  rw [hne]
  simp only [Bool.false_eq_true, if_false]
  induction ts1 with
  | nil =>
    simp only [List.nil_append]
    unfold findLoop
    rw [herr]
  | cons a ts1 ih =>
    obtain ⟨b, hb⟩ := hok a (List.mem_cons_self a ts1)
    have ihh := ih (fun t' ht' => hok t' (List.mem_cons_of_mem a ht')) (by cases ts1 <;> simp)
    simp only [List.cons_append]
    unfold findLoop
    rw [hb, ihh]

/-- Witness for C4: the abort theorem applied to a first trigger that
matches followed by the trigger whose evaluation errors. -/
theorem findMatching_aborts_witness :
    FindMatchingTriggers compileOk runStub [tGood, tBad] evOk
      = some (Except.error ("error matching trigger " ++ tBad.ID ++ ": "
          ++ "failed to evaluate criteria: boom")) :=
  findMatching_aborts_on_error compileOk runStub evOk [tGood] tBad []
    "failed to evaluate criteria: boom"
    (by intro t' ht'
        simp only [List.mem_singleton] at ht'
        subst ht'
        exact ⟨true, rfl⟩)
    rfl

/-- Counterexample for C5: under the interleaving in which both
callers pass the cache check before either stores, the load runs
twice and the callers finish with distinct handles; the second handle
overwrites the first in the cache. -/
theorem cache_double_load_counterexample :
    cacheRun "p" [false, true, false, true] (cacheCold, CacheThread.check, CacheThread.check)
      = ({ plugins := [("p", 1)], loadCount := 2, nextHandle := 2 },
          CacheThread.done 0, CacheThread.done 1)
    ∧ (0 : Nat) ≠ 1 :=
  ⟨rfl, by decide⟩

/-- C5 as amended: getPlugin is an unsynchronized check-then-load: a
caller that observes a cached handle returns it without loading, and
when the callers run sequentially the load happens exactly once, both
receiving the same handle; only overlapping cold-cache callers can
load more than once, as the counterexample schedule shows. -/
theorem cache_hit_returns_without_load
    (g : CacheGlobal) (name : String) (h : Nat)
    (hhit : lookupA g.plugins name = some h) :
    cacheStep name g CacheThread.check = (g, CacheThread.done h)
    ∧ cacheRun "p" [false, false, true] (cacheCold, CacheThread.check, CacheThread.check)
        = ({ plugins := [("p", 0)], loadCount := 1, nextHandle := 1 },
            CacheThread.done 0, CacheThread.done 0) := by
  constructor
  · unfold cacheStep
    rw [hhit]
  · rfl

/-- Witness for C5: the hit theorem applied to a cache already holding
a handle for the name. -/
theorem cache_hit_returns_without_load_witness :
    cacheStep "p" { plugins := [("p", 5)], loadCount := 1, nextHandle := 6 } CacheThread.check
      = ({ plugins := [("p", 5)], loadCount := 1, nextHandle := 6 }, CacheThread.done 5)
    ∧ cacheRun "p" [false, false, true] (cacheCold, CacheThread.check, CacheThread.check)
        = ({ plugins := [("p", 0)], loadCount := 1, nextHandle := 1 },
            CacheThread.done 0, CacheThread.done 0) :=
  cache_hit_returns_without_load { plugins := [("p", 5)], loadCount := 1, nextHandle := 6 } "p" 5 rfl

/-- C6: for every consumed message the watcher handler sends exactly
one acknowledgment or negative acknowledgment: one ack exactly when
decoding and the handler both succeed, one nak otherwise. -/
theorem watcher_exactly_one_ack_or_nak
    (decode : ByteSeq → Except String Event)
    (metadata : Option (String × Int × String))
    (handler : Event → Except String Unit)
    (data : ByteSeq) :
    (handleMessage decode metadata handler data = [BusAct.ack]
      ∨ handleMessage decode metadata handler data = [BusAct.nak])
    ∧ (handleMessage decode metadata handler data = [BusAct.ack]
        ↔ ∃ e, decode data = Except.ok e ∧ handler (applyMeta metadata e) = Except.ok ()) := by
  cases hd : decode data with
  | error msg => simp [handleMessage, hd]
  | ok e =>
    cases hh : handler (applyMeta metadata e) with
    | error msg => simp [handleMessage, hd, hh]
    | ok u =>
      cases u
      simp [handleMessage, hd, hh]

/-- C8: a delete notification carries the full KV key of the trigger,
namespace dot id, but the index removal is keyed by the trigger id, so
the removal is a no-op; the trigger is still returned by a subsequent
lookup.  Removal under the bare trigger id, by contrast, empties the
lookup, which isolates the key mismatch. -/
theorem watchDelete_wrong_key_leaves_trigger :
    watchDeleteStep idx0 (saveKey "default" "t1") = idx0
    ∧ getTriggers (watchDeleteStep idx0 (saveKey "default" "t1")) "prod" = [t1]
    ∧ getTriggers (removeTrigger idx0 "t1") "prod" = [] :=
  ⟨by decide, by decide, by decide⟩
